import Mathlib

/-!
Verification development for the vkParticle repository: a shallow embedding of
the per-frame orchestration, descriptor wiring, swapchain management and
particle-buffer initialization, with theorems settling the specification
claims against the code.

Machine integers are modelled as Nat with explicit reduction modulo 2 ^ 64
where C++ unsigned wraparound matters (the uint64_t timeline counter and the
size_t loop index feeding the descriptor slot computation).
-/

namespace VkParticle

/-- Modulus of C++ uint64_t and size_t arithmetic: 2 ^ 64. -/
def U64 : Nat := 2 ^ 64

/-- Static constant SMaxFramesInFlight = 2 (common.hpp line 194). -/
def SMaxFramesInFlight : Nat := 2

/-- Static constant SParticleCount = 8192 (common.hpp line 196). -/
def SParticleCount : Nat := 8192

/-- Static constant SFenceTimeout = 100000000 (common.hpp line 195).
This constant is declared in the header but is not referenced by drawFrame. -/
def SFenceTimeout : Nat := 100000000

/-- Timeout argument actually passed to waitForFences and waitSemaphores in
drawFrame (draw.cpp lines 13 and 89): UINT64_MAX, which the Vulkan
specification defines as the sentinel for a wait that does not time out. -/
def fenceWaitTimeout : Nat := U64 - 1

/-- Byte size of struct UniformBufferObject (common.hpp lines 40-42):
a single 32-bit float deltaTime. -/
def uniformBufferObjectSize : Nat := 4

/-- Byte size of struct Particle (common.hpp lines 17-21): glm::vec2 position
(8 bytes) + glm::vec2 velocity (8 bytes) + glm::vec4 color (16 bytes). -/
def particleSize : Nat := 32

/-! ## Swapchain minimum image count (swapchain.cpp lines 17-26) -/

/-- Fields of vk::SurfaceCapabilitiesKHR consulted by chooseSwapMinImageCount. -/
structure SurfaceCapabilities where
  minImageCount : Nat
  maxImageCount : Nat
deriving DecidableEq

/-- Translation of chooseSwapMinImageCount (swapchain.cpp lines 17-26):
start from max(3, surfaceCapabilities.minImageCount) and clamp down to
maxImageCount when that is nonzero and smaller. -/
def chooseSwapMinImageCount (caps : SurfaceCapabilities) : Nat :=
  let minImageCount := max 3 caps.minImageCount
  if 0 < caps.maxImageCount ∧ caps.maxImageCount < minImageCount then
    caps.maxImageCount
  else
    minImageCount

/-- Statement of the spec sentence for the swapchain minimum image count,
written from the claim words: the result equals max(3, surface minimum),
except that a nonzero surface maximum smaller than that value clamps it. -/
def specMinImageCount (caps : SurfaceCapabilities) : Nat :=
  if caps.maxImageCount ≠ 0 ∧ caps.maxImageCount < max 3 caps.minImageCount then
    caps.maxImageCount
  else
    max 3 caps.minImageCount

/-! ## The size_t previous-slot expression (descriptors.cpp line 53) -/

/-- Translation of the expression (i - 1) % SMaxFramesInFlight evaluated on a
size_t loop variable i (descriptors.cpp lines 52-54, vk_particle.cpp line 876):
the subtraction wraps modulo 2 ^ 64 before the modulo by the frame count, so
for i = 0 the dividend is 2 ^ 64 - 1 rather than the mathematical -1. -/
def wrapPrevSlot (i f : Nat) : Nat := ((i + (U64 - 1)) % U64) % f

/-! ## Compute dispatch (vk_particle.cpp lines 938-948) -/

/-- Work-group size hard-coded into the dispatch expression
dispatch(ParticleCount / 256, 1, 1) at vk_particle.cpp line 946. -/
def SComputeWorkGroupSize : Nat := 256

/-- Number of work-groups dispatched for a given particle count:
truncating unsigned integer division by 256 (vk_particle.cpp line 946). -/
def dispatchGroupCount (particleCount : Nat) : Nat :=
  particleCount / SComputeWorkGroupSize

/-- Commands recorded into a compute command buffer. -/
inductive ComputeCmd where
  | reset
  | beginBuf
  | bindPipeline
  | bindDescriptorSets
  | dispatch (x y z : Nat)
  | endBuf
deriving DecidableEq

/-- Translation of recordComputeCommandBuffer (vk_particle.cpp lines 938-948):
reset, begin, bind pipeline, bind descriptor sets, dispatch ParticleCount / 256
work-groups, end. The function contains no assertion or divisibility check on
the particle count; a non-divisible count silently truncates. -/
def recordComputeCommandBuffer (particleCount : Nat) : List ComputeCmd :=
  [ComputeCmd.reset, ComputeCmd.beginBuf, ComputeCmd.bindPipeline,
   ComputeCmd.bindDescriptorSets,
   ComputeCmd.dispatch (dispatchGroupCount particleCount) 1 1,
   ComputeCmd.endBuf]

/-! ## Descriptor wiring (descriptors.cpp lines 38-88) -/

/-- Reference to one of the per-frame-slot buffers. -/
inductive BufRef where
  | uniformBuf (slot : Nat)
  | storageBuf (slot : Nat)
deriving DecidableEq

/-- Vulkan descriptor types used by the compute descriptor set. -/
inductive DescriptorType where
  | uniformBufferDesc
  | storageBufferDesc
deriving DecidableEq

/-- One vk::WriteDescriptorSet together with its vk::DescriptorBufferInfo,
as filled in by createComputeDescriptorSets. -/
structure WriteDescriptorSet where
  dstSet : Nat
  dstBinding : Nat
  descriptorType : DescriptorType
  buffer : BufRef
  offset : Nat
  range : Nat
deriving DecidableEq

/-- Translation of the loop body of createComputeDescriptorSets
(descriptors.cpp lines 48-87): for slot i, binding 0 is slot i's uniform
buffer with range sizeof(UniformBufferObject); binding 1 is the particle
buffer at index (i - 1) % SMaxFramesInFlight computed on size_t, with range
sizeof(Particle) * SParticleCount; binding 2 is slot i's particle buffer with
the same range. -/
def descriptorWritesFor (i : Nat) : List WriteDescriptorSet :=
  [ { dstSet := i
      dstBinding := 0
      descriptorType := DescriptorType.uniformBufferDesc
      buffer := BufRef.uniformBuf i
      offset := 0
      range := uniformBufferObjectSize },
    { dstSet := i
      dstBinding := 1
      descriptorType := DescriptorType.storageBufferDesc
      buffer := BufRef.storageBuf (wrapPrevSlot i SMaxFramesInFlight)
      offset := 0
      range := particleSize * SParticleCount },
    { dstSet := i
      dstBinding := 2
      descriptorType := DescriptorType.storageBufferDesc
      buffer := BufRef.storageBuf i
      offset := 0
      range := particleSize * SParticleCount } ]

/-- Translation of createComputeDescriptorSets (descriptors.cpp lines 38-88):
one list of three descriptor writes for every frame slot 0..SMaxFramesInFlight-1. -/
def createComputeDescriptorSets : List (List WriteDescriptorSet) :=
  (List.range SMaxFramesInFlight).map descriptorWritesFor

/-- The startup calls performed by initVulkan, in order (init.cpp lines 38-57). -/
inductive InitStep where
  | createInstance
  | setupDebugMessenger
  | createSurface
  | pickPhysicalDevice
  | createLogicalDevice
  | createSwapChain
  | createImageViews
  | createComputeDescriptorSetLayout
  | createGraphicsPipeline
  | createComputePipeline
  | createCommandPool
  | createShaderStorageBuffers
  | createUniformBuffers
  | createDescriptorPool
  | createComputeDescriptorSets
  | createGraphicsCommandBuffers
  | createComputeCommandBuffers
  | createSyncObjects
deriving DecidableEq

/-- Translation of the body of initVulkan (init.cpp lines 38-57). -/
def initVulkanSteps : List InitStep :=
  [InitStep.createInstance, InitStep.setupDebugMessenger, InitStep.createSurface,
   InitStep.pickPhysicalDevice, InitStep.createLogicalDevice, InitStep.createSwapChain,
   InitStep.createImageViews, InitStep.createComputeDescriptorSetLayout,
   InitStep.createGraphicsPipeline, InitStep.createComputePipeline,
   InitStep.createCommandPool, InitStep.createShaderStorageBuffers,
   InitStep.createUniformBuffers, InitStep.createDescriptorPool,
   InitStep.createComputeDescriptorSets, InitStep.createGraphicsCommandBuffers,
   InitStep.createComputeCommandBuffers, InitStep.createSyncObjects]

/-! ## Particle seeding and storage buffer upload (vk_particle.cpp lines 754-805) -/

/-- Modulus 2147483647 of the minstd linear congruential engine behind
std::default_random_engine (vk_particle.cpp line 756). -/
def lcgModulus : Nat := 2147483647

/-- Multiplier 16807 of the minstd linear congruential engine. -/
def lcgMultiplier : Nat := 16807

/-- One step of the minstd engine. -/
def lcgNext (s : Nat) : Nat := lcgMultiplier * s % lcgModulus

/-- Engine construction from a seed: the seed is reduced modulo the modulus,
with zero replaced by one so the multiplicative engine is never stuck. -/
def lcgSeedState (seed : Nat) : Nat :=
  if seed % lcgModulus = 0 then 1 else seed % lcgModulus

/-- The k-th raw value drawn from the engine started at state s. -/
def lcgDraw (s : Nat) : Nat → Nat
  | 0 => lcgNext s
  | n + 1 => lcgNext (lcgDraw s n)

/-- Translation of the particle seeding loop (vk_particle.cpp lines 760-770):
particle i consumes five successive engine draws (disk radius sample, angle
sample, and three color samples). The floating-point post-processing
(sqrtf, cosf, sinf, normalize, the aspect correction and the velocity scale)
is a fixed deterministic function of those draws; it is abstracted as the
parameter mk, so the theorems below hold for every such interpretation. -/
def seedParticles (mk : Nat → Nat → Nat → Nat → Nat → α) (seed n : Nat) : List α :=
  (List.range n).map (fun i =>
    let s := lcgSeedState seed
    mk (lcgDraw s (5 * i)) (lcgDraw s (5 * i + 1)) (lcgDraw s (5 * i + 2))
      (lcgDraw s (5 * i + 3)) (lcgDraw s (5 * i + 4)))

/-- Translation of createShaderStorageBuffers (vk_particle.cpp lines 754-805):
the seeded particle array is written once into a single staging buffer, and the
loop over the SMaxFramesInFlight frame slots copies that same staging buffer
into each device-local storage buffer. -/
def createShaderStorageBuffers (mk : Nat → Nat → Nat → Nat → Nat → α)
    (seed : Nat) : List (List α) :=
  let staging := seedParticles mk seed SParticleCount
  (List.range SMaxFramesInFlight).map (fun _ => staging)

/-! ## Events observable from the host-side control flow -/

/-- Host-visible actions taken by drawFrame and recreateSwapChain, in program
order. Submission events carry the frame slot and the timeline semaphore wait
and signal values of the submission. -/
inductive Ev where
  | acquireNextImage (slot : Nat)
  | waitFence (slot timeout : Nat)
  | resetFence (slot : Nat)
  | updateUniform (slot : Nat)
  | submitCompute (slot waitValue signalValue : Nat)
  | submitGraphics (slot waitValue signalValue : Nat)
  | hostWaitTimeline (value timeout : Nat)
  | presentImage
  | clearResizedFlag
  | pollFramebufferSize (w h : Nat)
  | waitEvents
  | waitIdle
  | destroyImageViews
  | destroySwapchain
  | createSwapchain
  | createImageViews
  | advanceFrame (slot : Nat)
deriving DecidableEq

/-! ## recreateSwapChain (swapchain.cpp lines 121-134) -/

/-- Translation of the while loop of recreateSwapChain (swapchain.cpp lines
124-127): while either framebuffer dimension is zero, poll the size again and
yield to the event pump. The input list is the successive sizes the window
system reports; if every reported size has a zero dimension the loop never
terminates, modelled as none. -/
def pollLoopEvents : List (Nat × Nat) → Option (List Ev)
  | [] => none
  | s :: rest =>
    if s.1 = 0 ∨ s.2 = 0 then
      (pollLoopEvents rest).map
        (fun t => Ev.pollFramebufferSize s.1 s.2 :: Ev.waitEvents :: t)
    else
      some [Ev.pollFramebufferSize s.1 s.2, Ev.waitEvents]

/-- Translation of recreateSwapChain (swapchain.cpp lines 121-134): poll the
framebuffer size, busy-loop while it has a zero dimension, then wait for the
device to go idle, then destroy the image views and the swapchain
(cleanupSwapChain, lines 116-119), then re-create the swapchain and its views.
The first reported size is polled before the loop; none means the window never
reports a nonzero size and the call never returns. -/
def recreateSwapChainEvents (sizes : List (Nat × Nat)) : Option (List Ev) :=
  match sizes with
  | [] => none
  | s :: rest =>
    let tail := [Ev.waitIdle, Ev.destroyImageViews, Ev.destroySwapchain,
                 Ev.createSwapchain, Ev.createImageViews]
    if s.1 = 0 ∨ s.2 = 0 then
      (pollLoopEvents rest).map
        (fun t => Ev.pollFramebufferSize s.1 s.2 :: (t ++ tail))
    else
      some (Ev.pollFramebufferSize s.1 s.2 :: tail)

/-! ## Application state and drawFrame (draw.cpp lines 6-111) -/

/-- Runtime error conditions of a frame. presentFailed models the C++
std::runtime_error thrown for a present result other than success,
out-of-date or suboptimal; resizePollDiverged models non-termination of the
recreateSwapChain busy loop (the window never regains a nonzero size). -/
inductive DrawError where
  | presentFailed
  | resizePollDiverged
deriving DecidableEq

/-- Vulkan result codes relevant to the frame loop. -/
inductive VkResult where
  | eSuccess
  | eTimeout
  | eSuboptimalKHR
  | eErrorOutOfDateKHR
  | eErrorDeviceLost
  | eErrorSurfaceLostKHR
deriving DecidableEq

/-- Host-visible state of the vkParticle object that drawFrame reads or
writes (common.hpp lines 147-179). The mapped uniform buffers hold the
deltaTime payload, modelled over the rationals since multiplication of a
float by 2 is exact. swapchainGeneration counts swapchain rebuilds. -/
structure AppState where
  timelineValue : Nat
  currentFrame : Nat
  framebufferResized : Bool
  uniformBuffersMapped : List ℚ
  lastFrameTime : ℚ
  descriptorSets : List (List WriteDescriptorSet)
  swapchainGeneration : Nat
deriving DecidableEq

/-- Translation of updateUniformBuffer (part_001 lines 11-17, vk_particle.cpp
lines 580-584): write lastFrameTime * 2 into the mapped uniform buffer of the
given frame slot, leaving every other slot untouched. -/
def updateUniformBuffer (currentImage : Nat) (st : AppState) : AppState :=
  { st with uniformBuffersMapped :=
      st.uniformBuffersMapped.set currentImage (st.lastFrameTime * 2) }

/-- Event prefix common to every execution of drawFrame (draw.cpp lines 6-99):
acquire the next image using slot c's fence, wait for that fence in a retry
loop (fenceTimeouts timeout results followed by one successful wait, all with
the UINT64_MAX timeout), reset the fence, update slot c's uniform buffer,
submit compute waiting on timeline value v and signalling v + 1, submit
graphics waiting on v + 1 and signalling v + 2 (all arithmetic on the uint64
counter, thus modulo 2 ^ 64), wait host-side for the timeline to reach the
graphics signal value in a retry loop, and issue the present call. -/
def frameEvents (c v fenceTimeouts semTimeouts : Nat) : List Ev :=
  Ev.acquireNextImage c ::
    (List.replicate (fenceTimeouts + 1) (Ev.waitFence c fenceWaitTimeout) ++
      Ev.resetFence c :: Ev.updateUniform c ::
      Ev.submitCompute c v ((v + 1) % U64) ::
      Ev.submitGraphics c ((v + 1) % U64) (((v + 1) % U64 + 1) % U64) ::
      (List.replicate (semTimeouts + 1)
          (Ev.hostWaitTimeline (((v + 1) % U64 + 1) % U64) fenceWaitTimeout) ++
        [Ev.presentImage]))

/-- Translation of drawFrame (draw.cpp lines 6-111). Inputs beyond the state:
fenceTimeouts and semTimeouts are how many eTimeout results the driver returns
from waitForFences and waitSemaphores before succeeding (each one causes one
more iteration of the corresponding retry loop); presentResult is the result
of vkQueuePresentKHR; resizeSizes is the sequence of framebuffer sizes the
window system reports should recreateSwapChain run. Returns the final state
(or the fatal error) and the trace of host-visible events in program order. -/
def drawFrame (st : AppState) (fenceTimeouts semTimeouts : Nat)
    (presentResult : VkResult) (resizeSizes : List (Nat × Nat)) :
    Except DrawError AppState × List Ev :=
  let c := st.currentFrame
  let computeSignalValue := (st.timelineValue + 1) % U64
  let graphicsSignalValue := (computeSignalValue + 1) % U64
  let pre : List Ev := frameEvents c st.timelineValue fenceTimeouts semTimeouts
  let stUpd := { updateUniformBuffer c st with timelineValue := graphicsSignalValue }
  let nextFrame := (c + 1) % SMaxFramesInFlight
  if presentResult = VkResult.eErrorOutOfDateKHR ∨
      presentResult = VkResult.eSuboptimalKHR ∨ st.framebufferResized then
    match recreateSwapChainEvents resizeSizes with
    | some evs =>
      (Except.ok { stUpd with
                    framebufferResized := false
                    swapchainGeneration := st.swapchainGeneration + 1
                    currentFrame := nextFrame },
       pre ++ Ev.clearResizedFlag :: (evs ++ [Ev.advanceFrame nextFrame]))
    | none =>
      (Except.error DrawError.resizePollDiverged, pre ++ [Ev.clearResizedFlag])
  else if presentResult = VkResult.eSuccess then
    (Except.ok { stUpd with currentFrame := nextFrame },
     pre ++ [Ev.advanceFrame nextFrame])
  else
    (Except.error DrawError.presentFailed, pre)

/-- Pure state transition of one successful frame: the timeline counter
advances by 2 modulo 2 ^ 64, the current slot's uniform buffer receives the
scaled delta time, and the frame index advances modulo SMaxFramesInFlight. -/
def drawFrameState (st : AppState) : AppState :=
  { updateUniformBuffer st.currentFrame st with
      timelineValue := (st.timelineValue + 2) % U64
      currentFrame := (st.currentFrame + 1) % SMaxFramesInFlight }

/-- State after createSyncObjects and the rest of initVulkan (init.cpp lines
178-190): timeline semaphore created with initial value 0, MTimelineValue = 0,
MCurrentFrame = 0, resize flag clear, descriptor sets wired once. -/
def initialState : AppState :=
  { timelineValue := 0
    currentFrame := 0
    framebufferResized := false
    uniformBuffersMapped := List.replicate SMaxFramesInFlight 0
    lastFrameTime := 0
    descriptorSets := createComputeDescriptorSets
    swapchainGeneration := 0 }

/-- State after n successful frames starting from the freshly initialized
application. -/
def runState : Nat → AppState
  | 0 => initialState
  | n + 1 => drawFrameState (runState n)

/-- Timeline counter value at the start of frame n. -/
def runTimeline (n : Nat) : Nat := (runState n).timelineValue

/-- The (wait, signal) timeline values of the compute submission of frame n. -/
def computePairAt (n : Nat) : Nat × Nat :=
  (runTimeline n, (runTimeline n + 1) % U64)

/-- The (wait, signal) timeline values of the graphics submission of frame n. -/
def graphicsPairAt (n : Nat) : Nat × Nat :=
  ((runTimeline n + 1) % U64, (runTimeline n + 2) % U64)

/-! ## Helper lemmas -/

theorem U64_pos : 0 < U64 := by
  simp [U64]

theorem wrapPrevSlot_zero (f : Nat) : wrapPrevSlot 0 f = (U64 - 1) % f := by
  have h : U64 - 1 < U64 := by
    have := U64_pos
    omega
  simp [wrapPrevSlot, Nat.mod_eq_of_lt h]

theorem wrapPrevSlot_succ (i f : Nat) (h1 : i + 1 < f) (h2 : f ≤ U64) :
    wrapPrevSlot (i + 1) f = i := by
  have hU := U64_pos
  have he : i + 1 + (U64 - 1) = i + U64 := by omega
  have hi : i < U64 := by omega
  simp [wrapPrevSlot, he, Nat.add_mod_right, Nat.mod_eq_of_lt hi,
    Nat.mod_eq_of_lt (show i < f by omega)]

theorem wrapPrevSlot_zero_iff (f : Nat) (hf : 0 < f) :
    wrapPrevSlot 0 f = f - 1 ↔ U64 % f = 0 := by
  have hU := U64_pos
  rw [wrapPrevSlot_zero]
  constructor
  · intro h0
    have hdm := Nat.div_add_mod (U64 - 1) f
    set q := (U64 - 1) / f with hq
    set m := f * q with hm
    have hmul : f * (q + 1) = m + f := by rw [hm]; ring
    have hU64 : U64 = f * (q + 1) := by omega
    rw [hU64]
    exact Nat.mul_mod_right f (q + 1)
  · intro h
    have hdvd : f ∣ U64 := Nat.dvd_of_mod_eq_zero h
    obtain ⟨k, hk⟩ := hdvd
    have hkpos : k ≠ 0 := by
      intro h0
      rw [h0, Nat.mul_zero] at hk
      omega
    obtain ⟨k1, rfl⟩ := Nat.exists_eq_succ_of_ne_zero hkpos
    have hsplit : U64 - 1 = f * k1 + (f - 1) := by
      have hx : f * (k1 + 1) = f * k1 + f := by ring
      have hk2 : U64 = f * k1 + f := by rw [hk, hx]
      omega
    rw [hsplit, Nat.mul_add_mod]
    exact Nat.mod_eq_of_lt (by omega)

/-- Claim C10. In createComputeDescriptorSets the read-source slot index is
the size_t expression (i - 1) % SMaxFramesInFlight, which wraps the
subtraction modulo 2 ^ 64. For a frame count f in the representable range,
the expression agrees with the intended preceding slot (i + f - 1) % f for
every slot i < f exactly when f divides 2 ^ 64; this holds for the configured
SMaxFramesInFlight = 2 (slot 0 reads slot 1 and slot 1 reads slot 0), holds
only for powers of two, and picks the wrong slot for example for f = 3, where
slot 0 reads slot 0 instead of slot 2. -/
theorem prev_slot_wraparound :
    (∀ f, 0 < f → f ≤ U64 →
      ((∀ i, i < f → wrapPrevSlot i f = (i + f - 1) % f) ↔ U64 % f = 0)) ∧
    (wrapPrevSlot 0 SMaxFramesInFlight = 1 ∧ wrapPrevSlot 1 SMaxFramesInFlight = 0) ∧
    (wrapPrevSlot 0 3 = 0 ∧ (0 + 3 - 1) % 3 = 2) ∧
    (∀ f, 0 < f → f ≤ U64 → (∀ k, f ≠ 2 ^ k) →
      ¬(∀ i, i < f → wrapPrevSlot i f = (i + f - 1) % f)) := by
  have hU := U64_pos
  have key : ∀ f, 0 < f → f ≤ U64 →
      ((∀ i, i < f → wrapPrevSlot i f = (i + f - 1) % f) ↔ U64 % f = 0) := by
    intro f hf hle
    constructor
    · intro h
      have h0 := h 0 hf
      have hr : (0 + f - 1) % f = f - 1 := by
        have hx : 0 + f - 1 = f - 1 := by omega
        rw [hx, Nat.mod_eq_of_lt (by omega)]
      rw [hr] at h0
      exact (wrapPrevSlot_zero_iff f hf).mp h0
    · intro h i hi
      cases i with
      | zero =>
        have h0 := (wrapPrevSlot_zero_iff f hf).mpr h
        rw [h0, Nat.mod_eq_of_lt (by omega)]
        omega
      | succ i1 =>
        rw [wrapPrevSlot_succ i1 f hi hle]
        have he : i1 + 1 + f - 1 = i1 + f := by omega
        rw [he, Nat.add_mod_right, Nat.mod_eq_of_lt (by omega)]
  refine ⟨key, ⟨by decide, by decide⟩, ⟨by decide, by decide⟩, ?_⟩
  intro f hf hle hnp hall
  have hmod := (key f hf hle).mp hall
  have hdvd : f ∣ 2 ^ 64 := Nat.dvd_of_mod_eq_zero hmod
  obtain ⟨k, _, hk⟩ := (Nat.dvd_prime_pow Nat.prime_two).mp hdvd
  exact hnp k hk

/-- Witness for prev_slot_wraparound: at the configured frame count 2
(which divides 2 ^ 64) the wrapped expression matches the intended
predecessor for slot 0. -/
theorem prev_slot_wraparound_witness : wrapPrevSlot 0 2 = (0 + 2 - 1) % 2 :=
  (prev_slot_wraparound.1 2 (by decide) (by decide)).mpr (by decide) 0 (by decide)

/-- Claim C8. chooseSwapMinImageCount equals max(3, surface minimum image
count) except that a nonzero surface maximum smaller than that value clamps
the result down to the maximum; in particular the result is at least 3 unless
the surface maximum forbids it. -/
theorem min_image_count_correct (caps : SurfaceCapabilities) :
    chooseSwapMinImageCount caps = specMinImageCount caps ∧
    (3 ≤ chooseSwapMinImageCount caps ∨
      (0 < caps.maxImageCount ∧ caps.maxImageCount < 3 ∧
        chooseSwapMinImageCount caps = caps.maxImageCount)) := by
  have h3 : 3 ≤ max 3 caps.minImageCount := Nat.le_max_left 3 caps.minImageCount
  constructor
  · simp only [chooseSwapMinImageCount, specMinImageCount]
    split_ifs with h1 h2 h2 <;> omega
  · simp only [chooseSwapMinImageCount]
    split_ifs with h1 <;> omega

/-- Witness for min_image_count_correct at a surface reporting minimum 1 and
no maximum: the computed count is 3. -/
theorem min_image_count_witness :
    chooseSwapMinImageCount ⟨1, 0⟩ = specMinImageCount ⟨1, 0⟩ :=
  (min_image_count_correct ⟨1, 0⟩).1

/-- Claim C6 (code side). The dispatch count is the truncating integer
division ParticleCount / 256: for the configured 8192 particles it is exactly
32, but for a particle count of 100 (not divisible by 256) the recorded
command buffer contains dispatch(0, 1, 1) with no assertion and no error,
covering strictly fewer invocations than there are particles: the
non-divisible count is silently truncated, not caught. -/
theorem dispatch_silent_truncation :
    dispatchGroupCount SParticleCount = 32 ∧
    SComputeWorkGroupSize = 256 ∧
    recordComputeCommandBuffer 100 =
      [ComputeCmd.reset, ComputeCmd.beginBuf, ComputeCmd.bindPipeline,
       ComputeCmd.bindDescriptorSets, ComputeCmd.dispatch 0 1 1,
       ComputeCmd.endBuf] ∧
    SComputeWorkGroupSize * dispatchGroupCount 100 < 100 := by
  decide

theorem pollLoopEvents_shape (sizes : List (Nat × Nat)) (t : List Ev)
    (h : pollLoopEvents sizes = some t) :
    ∀ e ∈ t, (∃ w hh, e = Ev.pollFramebufferSize w hh) ∨ e = Ev.waitEvents := by
  induction sizes generalizing t with
  | nil => simp [pollLoopEvents] at h
  | cons s rest ih =>
    rw [pollLoopEvents] at h
    by_cases hz : s.1 = 0 ∨ s.2 = 0
    · rw [if_pos hz, Option.map_eq_some'] at h
      obtain ⟨t1, ht1, rfl⟩ := h
      intro e he
      rcases List.mem_cons.mp he with he | he
      · exact Or.inl ⟨s.1, s.2, he⟩
      rcases List.mem_cons.mp he with he | he
      · exact Or.inr he
      · exact ih t1 ht1 e he
    · rw [if_neg hz, Option.some.injEq] at h
      subst h
      intro e he
      rcases List.mem_cons.mp he with he | he
      · exact Or.inl ⟨s.1, s.2, he⟩
      · simp at he
        exact Or.inr he

theorem recreateSwapChainEvents_split (sizes : List (Nat × Nat)) (t : List Ev)
    (h : recreateSwapChainEvents sizes = some t) :
    ∃ polls, t = polls ++ [Ev.waitIdle, Ev.destroyImageViews, Ev.destroySwapchain,
        Ev.createSwapchain, Ev.createImageViews] ∧
      polls ≠ [] ∧
      (∀ e ∈ polls, (∃ w hh, e = Ev.pollFramebufferSize w hh) ∨ e = Ev.waitEvents) := by
  cases sizes with
  | nil => simp [recreateSwapChainEvents] at h
  | cons s rest =>
    rw [recreateSwapChainEvents] at h
    by_cases hz : s.1 = 0 ∨ s.2 = 0
    · rw [if_pos hz, Option.map_eq_some'] at h
      obtain ⟨t1, ht1, rfl⟩ := h
      refine ⟨Ev.pollFramebufferSize s.1 s.2 :: t1, by simp, by simp, ?_⟩
      intro e he
      rcases List.mem_cons.mp he with he | he
      · exact Or.inl ⟨s.1, s.2, he⟩
      · exact pollLoopEvents_shape rest t1 ht1 e he
    · rw [if_neg hz, Option.some.injEq] at h
      subst h
      refine ⟨[Ev.pollFramebufferSize s.1 s.2], by simp, by simp, ?_⟩
      intro e he
      simp at he
      exact Or.inl ⟨s.1, s.2, he⟩

/-- Claim C5 (amended). For every terminating run of recreateSwapChain the
event trace consists of a nonempty busy-polling phase first (framebuffer size
polls interleaved with yields to the window system's event pump), and only
then the device-idle wait, then the destruction of the image views and the
swapchain, then the re-creation of the swapchain and its views; no frame
submission occurs anywhere in the trace. The claimed order (idle wait and
destruction before the polling) does not match the code: polling comes first. -/
theorem recreate_polls_then_idle_then_rebuild (sizes : List (Nat × Nat))
    (t : List Ev) (h : recreateSwapChainEvents sizes = some t) :
    ∃ polls, t = polls ++ [Ev.waitIdle, Ev.destroyImageViews, Ev.destroySwapchain,
        Ev.createSwapchain, Ev.createImageViews] ∧
      polls ≠ [] ∧
      (∀ e ∈ polls, (∃ w hh, e = Ev.pollFramebufferSize w hh) ∨ e = Ev.waitEvents) ∧
      (∀ s w v, Ev.submitCompute s w v ∉ t ∧ Ev.submitGraphics s w v ∉ t) := by
  obtain ⟨polls, rfl, hne, hcl⟩ := recreateSwapChainEvents_split sizes t h
  refine ⟨polls, rfl, hne, hcl, ?_⟩
  intro s w v
  constructor
  · intro hmem
    rcases List.mem_append.mp hmem with hmem | hmem
    · rcases hcl _ hmem with ⟨w1, h1, he⟩ | he <;> simp at he
    · simp at hmem
  · intro hmem
    rcases List.mem_append.mp hmem with hmem | hmem
    · rcases hcl _ hmem with ⟨w1, h1, he⟩ | he <;> simp at he
    · simp at hmem

/-- Witness for recreate_polls_then_idle_then_rebuild on a window that
immediately reports the nonzero size 800 x 600. -/
theorem recreate_order_witness :
    ∃ polls,
      [Ev.pollFramebufferSize 800 600, Ev.waitIdle, Ev.destroyImageViews,
        Ev.destroySwapchain, Ev.createSwapchain, Ev.createImageViews] =
        polls ++ [Ev.waitIdle, Ev.destroyImageViews, Ev.destroySwapchain,
          Ev.createSwapchain, Ev.createImageViews] ∧
      polls ≠ [] ∧
      (∀ e ∈ polls, (∃ w hh, e = Ev.pollFramebufferSize w hh) ∨ e = Ev.waitEvents) ∧
      (∀ s w v, Ev.submitCompute s w v ∉
          [Ev.pollFramebufferSize 800 600, Ev.waitIdle, Ev.destroyImageViews,
            Ev.destroySwapchain, Ev.createSwapchain, Ev.createImageViews] ∧
        Ev.submitGraphics s w v ∉
          [Ev.pollFramebufferSize 800 600, Ev.waitIdle, Ev.destroyImageViews,
            Ev.destroySwapchain, Ev.createSwapchain, Ev.createImageViews]) :=
  recreate_polls_then_idle_then_rebuild [(800, 600)] _ (by rfl)

/-- Counterexample to claim C5 as stated: at the concrete input of a window
reporting size 800 x 600, the first action of recreateSwapChain is the
framebuffer size poll, not the device-idle wait the claim puts first, and the
idle wait and destruction happen after the polling phase. -/
theorem recreate_first_step_is_poll :
    recreateSwapChainEvents [(800, 600)] =
      some [Ev.pollFramebufferSize 800 600, Ev.waitIdle, Ev.destroyImageViews,
        Ev.destroySwapchain, Ev.createSwapchain, Ev.createImageViews] ∧
    ((recreateSwapChainEvents [(800, 600)]).getD []).head? =
      some (Ev.pollFramebufferSize 800 600) ∧
    Ev.pollFramebufferSize 800 600 ≠ Ev.waitIdle := by
  refine ⟨by rfl, by rfl, by simp⟩

theorem frameEvents_shape (c v ft sT : Nat) :
    frameEvents c v ft sT =
      Ev.acquireNextImage c ::
        (List.replicate (ft + 1) (Ev.waitFence c fenceWaitTimeout) ++
          Ev.resetFence c :: Ev.updateUniform c ::
          Ev.submitCompute c v ((v + 1) % U64) ::
          Ev.submitGraphics c ((v + 1) % U64) ((v + 2) % U64) ::
          (List.replicate (sT + 1)
              (Ev.hostWaitTimeline ((v + 2) % U64) fenceWaitTimeout) ++
            [Ev.presentImage])) := by
  have hm : ((v + 1) % U64 + 1) % U64 = (v + 2) % U64 := by
    rw [Nat.mod_add_mod]
  rw [frameEvents, hm]

theorem drawFrame_trace (st : AppState) (ft sT : Nat) (r : VkResult)
    (szs : List (Nat × Nat)) :
    ∃ suffix, (drawFrame st ft sT r szs).2 =
      frameEvents st.currentFrame st.timelineValue ft sT ++ suffix := by
  rw [drawFrame]
  by_cases h1 : r = VkResult.eErrorOutOfDateKHR ∨ r = VkResult.eSuboptimalKHR ∨
      st.framebufferResized
  · rw [if_pos h1]
    cases hrec : recreateSwapChainEvents szs with
    | some evs => exact ⟨_, rfl⟩
    | none => exact ⟨_, rfl⟩
  · rw [if_neg h1]
    by_cases h2 : r = VkResult.eSuccess
    · rw [if_pos h2]
      exact ⟨_, rfl⟩
    · rw [if_neg h2]
      exact ⟨[], (List.append_nil _).symm⟩

theorem drawFrame_trace_shape (st : AppState) (ft sT : Nat) (r : VkResult)
    (szs : List (Nat × Nat)) :
    ∃ rest, (drawFrame st ft sT r szs).2 =
      Ev.acquireNextImage st.currentFrame ::
        (List.replicate (ft + 1) (Ev.waitFence st.currentFrame fenceWaitTimeout) ++
          Ev.resetFence st.currentFrame :: Ev.updateUniform st.currentFrame ::
          Ev.submitCompute st.currentFrame st.timelineValue
            ((st.timelineValue + 1) % U64) ::
          Ev.submitGraphics st.currentFrame ((st.timelineValue + 1) % U64)
            ((st.timelineValue + 2) % U64) :: rest) := by
  obtain ⟨suffix, hs⟩ := drawFrame_trace st ft sT r szs
  refine ⟨(List.replicate (sT + 1)
      (Ev.hostWaitTimeline ((st.timelineValue + 2) % U64) fenceWaitTimeout) ++
      [Ev.presentImage]) ++ suffix, ?_⟩
  rw [hs, frameEvents_shape]
  simp [List.append_assoc]

/-- Claim C3 (amended). Every execution of drawFrame begins with the image
acquire, then exactly fenceTimeouts + 1 waits on frame slot c's fence — each
with timeout argument UINT64_MAX = 2 ^ 64 - 1, the Vulkan sentinel for a wait
that does not time out, rather than the repo's unused bounded SFenceTimeout
constant — where every eTimeout result is answered by another iteration of
the wait loop rather than an error, then the fence reset; the compute and
graphics submissions for slot c occur only after the reset. The number of
timeout retries never changes the outcome of the frame. -/
theorem fence_wait_unbounded_retry (st : AppState) (ft sT : Nat) (r : VkResult)
    (szs : List (Nat × Nat)) :
    (∃ rest, (drawFrame st ft sT r szs).2 =
      Ev.acquireNextImage st.currentFrame ::
        (List.replicate (ft + 1) (Ev.waitFence st.currentFrame fenceWaitTimeout) ++
          Ev.resetFence st.currentFrame :: rest) ∧
      Ev.submitCompute st.currentFrame st.timelineValue
          ((st.timelineValue + 1) % U64) ∈ rest ∧
      Ev.submitGraphics st.currentFrame ((st.timelineValue + 1) % U64)
          ((st.timelineValue + 2) % U64) ∈ rest) ∧
    fenceWaitTimeout = U64 - 1 ∧
    (drawFrame st ft sT r szs).1 = (drawFrame st 0 0 r szs).1 := by
  refine ⟨?_, by rfl, ?_⟩
  · obtain ⟨rest, hr⟩ := drawFrame_trace_shape st ft sT r szs
    exact ⟨_, hr, by simp, by simp⟩
  · rw [drawFrame, drawFrame]
    by_cases h1 : r = VkResult.eErrorOutOfDateKHR ∨ r = VkResult.eSuboptimalKHR ∨
        st.framebufferResized
    · rw [if_pos h1, if_pos h1]
      cases hrec : recreateSwapChainEvents szs <;> rfl
    · rw [if_neg h1, if_neg h1]
      by_cases h2 : r = VkResult.eSuccess
      · rw [if_pos h2, if_pos h2]
      · rw [if_neg h2, if_neg h2]

/-- Witness for fence_wait_unbounded_retry: the first frame from the initial
state, with two timeout retries on the fence wait and a successful present. -/
theorem fence_wait_retry_witness :
    (∃ rest, (drawFrame initialState 2 0 VkResult.eSuccess []).2 =
      Ev.acquireNextImage initialState.currentFrame ::
        (List.replicate 3 (Ev.waitFence initialState.currentFrame fenceWaitTimeout) ++
          Ev.resetFence initialState.currentFrame :: rest) ∧
      Ev.submitCompute initialState.currentFrame initialState.timelineValue
          ((initialState.timelineValue + 1) % U64) ∈ rest ∧
      Ev.submitGraphics initialState.currentFrame
          ((initialState.timelineValue + 1) % U64)
          ((initialState.timelineValue + 2) % U64) ∈ rest) ∧
    fenceWaitTimeout = U64 - 1 ∧
    (drawFrame initialState 2 0 VkResult.eSuccess []).1 =
      (drawFrame initialState 0 0 VkResult.eSuccess []).1 :=
  fence_wait_unbounded_retry initialState 2 0 VkResult.eSuccess []

/-- Counterexample to the "bounded timeout" part of claim C3 as stated: the
timeout argument drawFrame passes to the fence wait is UINT64_MAX
(2 ^ 64 - 1, the Vulkan sentinel meaning the wait never times out), not the
bounded SFenceTimeout = 10 ^ 8 nanoseconds constant the header declares. -/
theorem fence_timeout_not_bounded :
    fenceWaitTimeout = U64 - 1 ∧ SFenceTimeout = 100000000 ∧
    fenceWaitTimeout ≠ SFenceTimeout := by
  refine ⟨rfl, rfl, by decide⟩

theorem frameEvents_no_create (c v ft sT : Nat) :
    Ev.createSwapchain ∉ frameEvents c v ft sT := by
  simp [frameEvents, List.mem_append, List.mem_replicate]

theorem recreate_mem_create (szs : List (Nat × Nat)) (evs : List Ev)
    (h : recreateSwapChainEvents szs = some evs) : Ev.createSwapchain ∈ evs := by
  obtain ⟨polls, rfl, _, _⟩ := recreateSwapChainEvents_split szs evs h
  simp

theorem recreate_no_advance (szs : List (Nat × Nat)) (evs : List Ev) (k : Nat)
    (h : recreateSwapChainEvents szs = some evs) : Ev.advanceFrame k ∉ evs := by
  obtain ⟨polls, rfl, _, hcl⟩ := recreateSwapChainEvents_split szs evs h
  intro hmem
  rcases List.mem_append.mp hmem with hmem | hmem
  · rcases hcl _ hmem with ⟨w1, h1, he⟩ | he <;> simp at he
  · simp at hmem

/-- Claim C4. After the present call in drawFrame: the swapchain is recreated
(and the resize flag cleared and the generation bumped) exactly when the
present result is out-of-date or suboptimal or the external resize flag was
set; in exactly those cases or on a plain success the frame completes and
reaches the Advance step; any other non-success present result is the fatal
present error; and a success with no resize flag leaves both the swapchain
generation and the resize flag unchanged. -/
theorem present_result_branching (st : AppState) (ft sT : Nat) (r : VkResult)
    (szs : List (Nat × Nat)) (hsz : (recreateSwapChainEvents szs).isSome = true) :
    ((Ev.createSwapchain ∈ (drawFrame st ft sT r szs).2) ↔
      (r = VkResult.eErrorOutOfDateKHR ∨ r = VkResult.eSuboptimalKHR ∨
        st.framebufferResized = true)) ∧
    (∀ s2, (drawFrame st ft sT r szs).1 = Except.ok s2 →
      ((r = VkResult.eErrorOutOfDateKHR ∨ r = VkResult.eSuboptimalKHR ∨
          st.framebufferResized = true) →
        s2.framebufferResized = false ∧
        s2.swapchainGeneration = st.swapchainGeneration + 1) ∧
      (¬(r = VkResult.eErrorOutOfDateKHR ∨ r = VkResult.eSuboptimalKHR ∨
          st.framebufferResized = true) →
        r = VkResult.eSuccess ∧
        s2.swapchainGeneration = st.swapchainGeneration ∧
        s2.framebufferResized = st.framebufferResized) ∧
      Ev.advanceFrame ((st.currentFrame + 1) % SMaxFramesInFlight) ∈
        (drawFrame st ft sT r szs).2) ∧
    ((drawFrame st ft sT r szs).1 = Except.error DrawError.presentFailed ↔
      (¬(r = VkResult.eErrorOutOfDateKHR ∨ r = VkResult.eSuboptimalKHR ∨
          st.framebufferResized = true) ∧ r ≠ VkResult.eSuccess)) ∧
    ((∃ s2, (drawFrame st ft sT r szs).1 = Except.ok s2) ↔
      (r = VkResult.eErrorOutOfDateKHR ∨ r = VkResult.eSuboptimalKHR ∨
        st.framebufferResized = true ∨ r = VkResult.eSuccess)) := by
  obtain ⟨evs, hevs⟩ := Option.isSome_iff_exists.mp hsz
  by_cases hcond : r = VkResult.eErrorOutOfDateKHR ∨ r = VkResult.eSuboptimalKHR ∨
      st.framebufferResized = true
  · rw [drawFrame, if_pos hcond, hevs]
    refine ⟨?_, ?_, ?_, ?_⟩
    · have hm : Ev.createSwapchain ∈ evs := recreate_mem_create szs evs hevs
      exact iff_of_true (by simp [List.mem_append, hm]) hcond
    · intro s2 hs2
      simp only [Except.ok.injEq] at hs2
      subst hs2
      refine ⟨fun _ => ⟨rfl, rfl⟩, fun hn => absurd hcond hn, ?_⟩
      simp
    · simp only [reduceCtorEq, false_iff, not_and, not_not]
      intro hn
      exact absurd hcond hn
    · simp only [Except.ok.injEq, exists_eq]
      tauto
  · rw [drawFrame, if_neg hcond]
    by_cases h2 : r = VkResult.eSuccess
    · rw [if_pos h2]
      refine ⟨?_, ?_, ?_, ?_⟩
      · refine iff_of_false ?_ hcond
        intro hmem
        rcases List.mem_append.mp hmem with hmem | hmem
        · exact frameEvents_no_create _ _ _ _ hmem
        · simp at hmem
      · intro s2 hs2
        simp only [Except.ok.injEq] at hs2
        subst hs2
        refine ⟨fun hc => absurd hc hcond, fun _ => ⟨h2, ?_, ?_⟩, by simp⟩
        · simp [updateUniformBuffer]
        · simp [updateUniformBuffer]
      · simp only [reduceCtorEq, false_iff, not_and, not_not]
        intro _
        exact h2
      · simp only [Except.ok.injEq, exists_eq]
        tauto
    · rw [if_neg h2]
      refine ⟨?_, ?_, ?_, ?_⟩
      · refine iff_of_false ?_ hcond
        intro hmem
        exact frameEvents_no_create _ _ _ _ hmem
      · intro s2 hs2
        simp at hs2
      · simp only [true_iff]
        exact ⟨hcond, h2⟩
      · constructor
        · intro ⟨s2, hs2⟩
          simp at hs2
        · intro hk
          rcases hk with hk | hk | hk | hk
          · exact absurd (Or.inl hk) hcond
          · exact absurd (Or.inr (Or.inl hk)) hcond
          · exact absurd (Or.inr (Or.inr hk)) hcond
          · exact absurd hk h2

/-- Witness for present_result_branching: first frame, successful present,
no resize flag, window reporting 800 x 600 if recreation were needed. -/
theorem present_result_witness :
    (Ev.createSwapchain ∈
        (drawFrame initialState 0 0 VkResult.eSuccess [(800, 600)]).2 ↔
      (VkResult.eSuccess = VkResult.eErrorOutOfDateKHR ∨
        VkResult.eSuccess = VkResult.eSuboptimalKHR ∨
        initialState.framebufferResized = true)) ∧
    (∀ s2, (drawFrame initialState 0 0 VkResult.eSuccess [(800, 600)]).1 =
        Except.ok s2 →
      ((VkResult.eSuccess = VkResult.eErrorOutOfDateKHR ∨
          VkResult.eSuccess = VkResult.eSuboptimalKHR ∨
          initialState.framebufferResized = true) →
        s2.framebufferResized = false ∧
        s2.swapchainGeneration = initialState.swapchainGeneration + 1) ∧
      (¬(VkResult.eSuccess = VkResult.eErrorOutOfDateKHR ∨
          VkResult.eSuccess = VkResult.eSuboptimalKHR ∨
          initialState.framebufferResized = true) →
        VkResult.eSuccess = VkResult.eSuccess ∧
        s2.swapchainGeneration = initialState.swapchainGeneration ∧
        s2.framebufferResized = initialState.framebufferResized) ∧
      Ev.advanceFrame ((initialState.currentFrame + 1) % SMaxFramesInFlight) ∈
        (drawFrame initialState 0 0 VkResult.eSuccess [(800, 600)]).2) ∧
    ((drawFrame initialState 0 0 VkResult.eSuccess [(800, 600)]).1 =
        Except.error DrawError.presentFailed ↔
      (¬(VkResult.eSuccess = VkResult.eErrorOutOfDateKHR ∨
          VkResult.eSuccess = VkResult.eSuboptimalKHR ∨
          initialState.framebufferResized = true) ∧
        VkResult.eSuccess ≠ VkResult.eSuccess)) ∧
    ((∃ s2, (drawFrame initialState 0 0 VkResult.eSuccess [(800, 600)]).1 =
        Except.ok s2) ↔
      (VkResult.eSuccess = VkResult.eErrorOutOfDateKHR ∨
        VkResult.eSuccess = VkResult.eSuboptimalKHR ∨
        initialState.framebufferResized = true ∨
        VkResult.eSuccess = VkResult.eSuccess)) :=
  present_result_branching initialState 0 0 VkResult.eSuccess [(800, 600)] (by rfl)

theorem runTimeline_closed (n : Nat) : runTimeline n = 2 * n % U64 := by
  induction n with
  | zero => rfl
  | succ n ih =>
    have hstep : runTimeline (n + 1) = (runTimeline n + 2) % U64 := rfl
    rw [hstep, ih, Nat.mod_add_mod]
    have he : 2 * n + 2 = 2 * (n + 1) := by ring
    rw [he]

theorem runState_resized (n : Nat) : (runState n).framebufferResized = false := by
  induction n with
  | zero => rfl
  | succ n ih =>
    have hstep : (runState (n + 1)).framebufferResized =
        (runState n).framebufferResized := rfl
    rw [hstep, ih]

theorem drawFrame_ok (st : AppState) (ft sT : Nat) (szs : List (Nat × Nat))
    (h : st.framebufferResized = false) :
    (drawFrame st ft sT VkResult.eSuccess szs).1 =
      Except.ok (drawFrameState st) := by
  have hcond : ¬(VkResult.eSuccess = VkResult.eErrorOutOfDateKHR ∨
      VkResult.eSuccess = VkResult.eSuboptimalKHR ∨
      st.framebufferResized = true) := by
    simp [h]
  rw [drawFrame, if_neg hcond, if_pos rfl]
  simp only [drawFrameState, Nat.mod_add_mod]

/-- Claim C1 (amended). Starting from the freshly created timeline semaphore
(counter 0), for all frames i and j executed before the 64-bit counter wraps
(that is, while 2 * i + 2 and 2 * j + 2 stay below 2 ^ 64): with V = 2 * i
the counter value at the start of frame i, the compute submission of frame i
waits for V and signals V + 1, the graphics submission waits for V + 1 and
signals V + 2, after the frame the counter has advanced by exactly 2, the
counter is strictly increasing and never returns to 0, distinct frames never
observe the same (wait, signal) pair, and one successful drawFrame from the
run state after i frames produces exactly the run state after i + 1 frames.
Without the wrap bound the aliasing claim fails (see the counterexample). -/
theorem timeline_protocol_before_wrap (i j : Nat)
    (hi : 2 * i + 2 < U64) (hj : 2 * j + 2 < U64) :
    runTimeline i = 2 * i ∧
    runTimeline (i + 1) = runTimeline i + 2 ∧
    computePairAt i = (2 * i, 2 * i + 1) ∧
    graphicsPairAt i = (2 * i + 1, 2 * i + 2) ∧
    (i < j → runTimeline i < runTimeline j) ∧
    (i ≠ j → computePairAt i ≠ computePairAt j ∧
      graphicsPairAt i ≠ graphicsPairAt j) ∧
    computePairAt i ≠ graphicsPairAt j ∧
    (0 < i → runTimeline i ≠ 0) ∧
    (∀ ft sT szs, (drawFrame (runState i) ft sT VkResult.eSuccess szs).1 =
      Except.ok (runState (i + 1))) ∧
    (∀ ft sT szs,
      Ev.submitCompute ((runState i).currentFrame) (2 * i) (2 * i + 1) ∈
        (drawFrame (runState i) ft sT VkResult.eSuccess szs).2 ∧
      Ev.submitGraphics ((runState i).currentFrame) (2 * i + 1) (2 * i + 2) ∈
        (drawFrame (runState i) ft sT VkResult.eSuccess szs).2) := by
  have hti : runTimeline i = 2 * i := by
    rw [runTimeline_closed]
    exact Nat.mod_eq_of_lt (by omega)
  have htj : runTimeline j = 2 * j := by
    rw [runTimeline_closed]
    exact Nat.mod_eq_of_lt (by omega)
  have hti1 : runTimeline (i + 1) = 2 * i + 2 := by
    rw [runTimeline_closed]
    have he : 2 * (i + 1) = 2 * i + 2 := by ring
    rw [he]
    exact Nat.mod_eq_of_lt hi
  have hm1 : (2 * i + 1) % U64 = 2 * i + 1 := Nat.mod_eq_of_lt (by omega)
  have hm2 : (2 * i + 2) % U64 = 2 * i + 2 := Nat.mod_eq_of_lt (by omega)
  have hmj1 : (2 * j + 1) % U64 = 2 * j + 1 := Nat.mod_eq_of_lt (by omega)
  have hmj2 : (2 * j + 2) % U64 = 2 * j + 2 := Nat.mod_eq_of_lt (by omega)
  have hcp : computePairAt i = (2 * i, 2 * i + 1) := by
    rw [computePairAt, hti, hm1]
  have hgp : graphicsPairAt i = (2 * i + 1, 2 * i + 2) := by
    rw [graphicsPairAt, hti, hm1, hm2]
  have hcpj : computePairAt j = (2 * j, 2 * j + 1) := by
    rw [computePairAt, htj, hmj1]
  have hgpj : graphicsPairAt j = (2 * j + 1, 2 * j + 2) := by
    rw [graphicsPairAt, htj, hmj1, hmj2]
  refine ⟨hti, by rw [hti, hti1], hcp, hgp, ?_, ?_, ?_, ?_, ?_, ?_⟩
  · intro hlt
    rw [hti, htj]
    omega
  · intro hne
    rw [hcp, hgp, hcpj, hgpj]
    constructor <;> intro hq <;> rw [Prod.mk.injEq] at hq <;> omega
  · rw [hcp, hgpj]
    intro hq
    rw [Prod.mk.injEq] at hq
    omega
  · intro hpos
    rw [hti]
    omega
  · intro ft sT szs
    exact drawFrame_ok (runState i) ft sT szs (runState_resized i)
  · intro ft sT szs
    obtain ⟨rest, hr⟩ := drawFrame_trace_shape (runState i) ft sT
      VkResult.eSuccess szs
    have hv : (runState i).timelineValue = 2 * i := hti
    rw [hv, hm1, hm2] at hr
    rw [hr]
    constructor <;> simp

/-- Witness for timeline_protocol_before_wrap at frames 0 and 1: frame 0
waits 0 / signals 1 in compute and waits 1 / signals 2 in graphics, and the
counter after one frame is 2. -/
theorem timeline_protocol_witness :
    runTimeline 0 = 2 * 0 ∧ runTimeline (0 + 1) = runTimeline 0 + 2 ∧
    computePairAt 0 = (2 * 0, 2 * 0 + 1) ∧
    graphicsPairAt 0 = (2 * 0 + 1, 2 * 0 + 2) := by
  obtain ⟨h1, h2, h3, h4, _⟩ :=
    timeline_protocol_before_wrap 0 1 (by norm_num [U64]) (by norm_num [U64])
  exact ⟨h1, h2, h3, h4⟩

/-- Counterexample to claim C1 as stated over an arbitrary run: the counter
is a uint64 and wraps, so frame 2 ^ 63 starts with counter value 0 again and
observes exactly the same compute and graphics (wait, signal) pairs as frame
0, refuting both strict increase and pair-aliasing-freedom at that concrete
frame index. -/
theorem timeline_counter_wraps :
    runTimeline (2 ^ 63) = 0 ∧ runTimeline 0 = 0 ∧ (2 ^ 63 : Nat) ≠ 0 ∧
    computePairAt (2 ^ 63) = computePairAt 0 ∧
    graphicsPairAt (2 ^ 63) = graphicsPairAt 0 := by
  have hw : runTimeline (2 ^ 63) = 0 := by
    rw [runTimeline_closed]
    have he : 2 * 2 ^ 63 = U64 := by norm_num [U64]
    rw [he, Nat.mod_self]
  have h0 : runTimeline 0 = 0 := rfl
  refine ⟨hw, h0, by positivity, ?_, ?_⟩
  · rw [computePairAt, computePairAt, hw, h0]
  · rw [graphicsPairAt, graphicsPairAt, hw, h0]

/-- Claim C2. For every frame slot i, createComputeDescriptorSets writes
exactly three descriptor bindings: binding 0 is slot i's uniform buffer with
range equal to the uniform payload size, binding 1 (storage) is slot
((i - 1) mod F)'s particle buffer with range sized to SParticleCount
particles, and binding 2 (storage) is slot i's particle buffer with the same
range; initVulkan performs this wiring exactly once at startup, and no
execution of drawFrame ever changes the descriptor sets. -/
theorem descriptor_wiring_fixed (i : Nat) (h : i < SMaxFramesInFlight) :
    createComputeDescriptorSets.length = SMaxFramesInFlight ∧
    createComputeDescriptorSets.get? i = some (descriptorWritesFor i) ∧
    (descriptorWritesFor i).length = 3 ∧
    descriptorWritesFor i =
      [ { dstSet := i
          dstBinding := 0
          descriptorType := DescriptorType.uniformBufferDesc
          buffer := BufRef.uniformBuf i
          offset := 0
          range := uniformBufferObjectSize },
        { dstSet := i
          dstBinding := 1
          descriptorType := DescriptorType.storageBufferDesc
          buffer := BufRef.storageBuf
            ((i + SMaxFramesInFlight - 1) % SMaxFramesInFlight)
          offset := 0
          range := particleSize * SParticleCount },
        { dstSet := i
          dstBinding := 2
          descriptorType := DescriptorType.storageBufferDesc
          buffer := BufRef.storageBuf i
          offset := 0
          range := particleSize * SParticleCount } ] ∧
    initVulkanSteps.count InitStep.createComputeDescriptorSets = 1 ∧
    (∀ st ft sT r szs s2, (drawFrame st ft sT r szs).1 = Except.ok s2 →
      s2.descriptorSets = st.descriptorSets) := by
  have hi2 : i = 0 ∨ i = 1 := by
    have hs : SMaxFramesInFlight = 2 := rfl
    omega
  refine ⟨by decide, ?_, ?_, ?_, by decide, ?_⟩
  · rcases hi2 with rfl | rfl <;> decide
  · rcases hi2 with rfl | rfl <;> decide
  · rcases hi2 with rfl | rfl <;> decide
  · intro st ft sT r szs s2 hs2
    rw [drawFrame] at hs2
    by_cases hcond : r = VkResult.eErrorOutOfDateKHR ∨
        r = VkResult.eSuboptimalKHR ∨ st.framebufferResized = true
    · rw [if_pos hcond] at hs2
      cases hrec : recreateSwapChainEvents szs with
      | some evs =>
        rw [hrec] at hs2
        simp only [Except.ok.injEq] at hs2
        subst hs2
        simp [updateUniformBuffer]
      | none =>
        rw [hrec] at hs2
        simp at hs2
    · rw [if_neg hcond] at hs2
      by_cases h2 : r = VkResult.eSuccess
      · rw [if_pos h2] at hs2
        simp only [Except.ok.injEq] at hs2
        subst hs2
        simp [updateUniformBuffer]
      · rw [if_neg h2] at hs2
        simp at hs2

/-- Witness for descriptor_wiring_fixed at frame slot 0: binding 1 reads
slot 1's particle buffer. -/
theorem descriptor_wiring_witness :
    createComputeDescriptorSets.get? 0 = some (descriptorWritesFor 0) ∧
    (descriptorWritesFor 0).length = 3 :=
  ⟨(descriptor_wiring_fixed 0 (by decide)).2.1,
    (descriptor_wiring_fixed 0 (by decide)).2.2.1⟩

/-- Claim C9. updateUniformBuffer(c) writes exactly one payload — the last
frame's delta time scaled by the constant 2 — into slot c's mapped uniform
buffer, leaves every other slot's mapped buffer unchanged, and in drawFrame
this write happens before the compute and graphics submissions of the frame. -/
theorem uniform_update_isolated (st : AppState) (c j : Nat)
    (hc : c < st.uniformBuffersMapped.length)
    (hj : j < st.uniformBuffersMapped.length) (hne : j ≠ c) :
    (updateUniformBuffer c st).uniformBuffersMapped.length =
      st.uniformBuffersMapped.length ∧
    (updateUniformBuffer c st).uniformBuffersMapped.get? c =
      some (st.lastFrameTime * 2) ∧
    (updateUniformBuffer c st).uniformBuffersMapped.get? j =
      st.uniformBuffersMapped.get? j ∧
    (∀ ft sT r szs, ∃ rest,
      (drawFrame st ft sT r szs).2 =
        Ev.acquireNextImage st.currentFrame ::
          (List.replicate (ft + 1)
              (Ev.waitFence st.currentFrame fenceWaitTimeout) ++
            Ev.resetFence st.currentFrame ::
            Ev.updateUniform st.currentFrame ::
            Ev.submitCompute st.currentFrame st.timelineValue
              ((st.timelineValue + 1) % U64) ::
            Ev.submitGraphics st.currentFrame ((st.timelineValue + 1) % U64)
              ((st.timelineValue + 2) % U64) :: rest)) := by
  refine ⟨?_, ?_, ?_, fun ft sT r szs => drawFrame_trace_shape st ft sT r szs⟩
  · simp [updateUniformBuffer]
  · simp [updateUniformBuffer, List.getElem?_set_self', hc]
  · simp [updateUniformBuffer, List.getElem?_set_ne (Ne.symm hne)]

/-- Witness for uniform_update_isolated: from the initial state, slot 0 is
written and slot 1 is untouched. -/
theorem uniform_update_witness :
    (updateUniformBuffer 0 initialState).uniformBuffersMapped.length =
      initialState.uniformBuffersMapped.length ∧
    (updateUniformBuffer 0 initialState).uniformBuffersMapped.get? 0 =
      some (initialState.lastFrameTime * 2) ∧
    (updateUniformBuffer 0 initialState).uniformBuffersMapped.get? 1 =
      initialState.uniformBuffersMapped.get? 1 :=
  ⟨(uniform_update_isolated initialState 0 1 (by decide) (by decide)
      (by decide)).1,
    (uniform_update_isolated initialState 0 1 (by decide) (by decide)
      (by decide)).2.1,
    (uniform_update_isolated initialState 0 1 (by decide) (by decide)
      (by decide)).2.2.1⟩

/-- Claim C7. After createShaderStorageBuffers, all SMaxFramesInFlight
device-local storage buffers hold the same bytes: each is a copy of the one
host-seeded particle array uploaded through the single staging buffer; and
the seeding is a deterministic function of the engine seed, so re-running it
with the same seed reproduces identical contents in both frame slots. The
statement is quantified over every deterministic interpretation mk of the
floating-point post-processing of the raw engine draws. -/
theorem storage_buffers_bitwise_identical {α : Type}
    (mk : Nat → Nat → Nat → Nat → Nat → α) (seed i j : Nat)
    (hi : i < SMaxFramesInFlight) (hj : j < SMaxFramesInFlight) :
    (createShaderStorageBuffers mk seed).length = SMaxFramesInFlight ∧
    (createShaderStorageBuffers mk seed).get? i =
      some (seedParticles mk seed SParticleCount) ∧
    (createShaderStorageBuffers mk seed).get? i =
      (createShaderStorageBuffers mk seed).get? j ∧
    (∀ seed2, seed2 = seed →
      createShaderStorageBuffers mk seed2 = createShaderStorageBuffers mk seed) := by
  have hget : ∀ k, k < SMaxFramesInFlight →
      (createShaderStorageBuffers mk seed).get? k =
        some (seedParticles mk seed SParticleCount) := by
    intro k hk
    have hk2 : k = 0 ∨ k = 1 := by
      have hs : SMaxFramesInFlight = 2 := rfl
      omega
    rcases hk2 with rfl | rfl <;> rfl
  refine ⟨rfl, hget i hi, ?_, fun seed2 he => by rw [he]⟩
  rw [hget i hi, hget j hj]

/-- Witness for storage_buffers_bitwise_identical with seed 1 and the
interpretation keeping the five raw draws as a tuple: slots 0 and 1 of the
uploaded buffers are equal. -/
theorem storage_buffers_witness :
    (createShaderStorageBuffers
        (fun a b c d e => (a, b, c, d, e)) 1).get? 0 =
      (createShaderStorageBuffers
        (fun a b c d e => (a, b, c, d, e)) 1).get? 1 :=
  (storage_buffers_bitwise_identical (fun a b c d e => (a, b, c, d, e)) 1 0 1
    (by decide) (by decide)).2.2.1

end VkParticle
